import Mathlib

/-!
Shallow embedding of `cobrautil.go` (package cobrautil): a toolkit that
synchronizes cobra flags with environment variables through viper, chains
pre-run hooks, configures zerolog logging and OpenTelemetry tracing, and
bootstraps gRPC/HTTP servers with TLS-aware construction and listening.

External collaborators (viper, zerolog globals, the OS terminal check,
the filesystem, and the network) are modelled as explicit inputs or as
explicit state threaded through the hook functions; errors produced with
fmt.Errorf are modelled by the inductive `GoError`, where wrapping with
the %w verb becomes the `wrap` constructor.
-/

namespace Cobrautil

/-- Go errors: a plain message built by fmt.Errorf, or a message wrapping an
inner error (the %w verb). -/
inductive GoError where
  | msg (s : String) : GoError
  | wrap (context : String) (inner : GoError) : GoError
deriving DecidableEq, Repr

/-- ASCII-level model of Go strings.ToLower: lowercases each basic latin
letter (the inputs relevant to this package are ASCII flag values).
Reuses core Char.toLower, which maps code points 65..90 to +32. -/
def goToLower (s : String) : String := ⟨s.data.map Char.toLower⟩

/-- ASCII-level model of Go strings.ToUpper, per character. -/
def goToUpper (s : String) : String := ⟨s.data.map Char.toUpper⟩

/-- Model of Go strings.ReplaceAll(s, "-", "_"): the pattern is one
character, so replacement is a character map. -/
def dashToUnderscore (s : String) : String :=
  ⟨s.data.map (fun c => if c = '-' then '_' else c)⟩

/-- stringz.DefaultEmpty: the second argument when the first is empty. -/
def defaultEmpty (s d : String) : String := if s = "" then d else s

theorem char_toNat_ofNat_valid {n : Nat} (h : n.isValidChar) :
    (Char.ofNat n).toNat = n := by
  simp only [Char.ofNat, dif_pos h, Char.ofNatAux, Char.toNat]
  simp [UInt32.toNat]

theorem charToLower_idem (c : Char) :
    Char.toLower (Char.toLower c) = Char.toLower c := by
  unfold Char.toLower
  by_cases h : c.toNat ≥ 65 ∧ c.toNat ≤ 90
  · have hv : (c.toNat + 32).isValidChar := Or.inl (by omega)
    have ht : (Char.ofNat (c.toNat + 32)).toNat = c.toNat + 32 :=
      char_toNat_ofNat_valid hv
    simp only [if_pos h, ht]
    have hn : ¬ (c.toNat + 32 ≥ 65 ∧ c.toNat + 32 ≤ 90) := by omega
    rw [if_neg hn]
  · simp [if_neg h]

theorem goToLower_idem (s : String) : goToLower (goToLower s) = goToLower s := by
  unfold goToLower
  simp only [List.map_map]
  congr 1
  exact List.map_congr_left (fun c _ => charToLower_idem c)

/-- Invocation context: the cobra.Command as the hooks observe it — its Use
line (for the builtin check) and the resolved flag values as looked up by
the MustGet accessors. -/
structure Command where
  use : String
  stringFlags : String → String
  boolFlags : String → Bool
  durationFlags : String → Nat

/-- Modelled from the spec: MustGetString is a flag accessor defined outside
the provided source file; the spec treats flag access as reading the already
resolved option value, so it is a total lookup on the invocation context. -/
def MustGetString (cmd : Command) (flag : String) : String := cmd.stringFlags flag

/-- Modelled from the spec: MustGetStringExpanded reads a resolved string
option (path flags); modelled as the same total lookup. -/
def MustGetStringExpanded (cmd : Command) (flag : String) : String :=
  cmd.stringFlags flag

/-- Modelled from the spec: MustGetBool reads a resolved boolean option. -/
def MustGetBool (cmd : Command) (flag : String) : Bool := cmd.boolFlags flag

/-- Modelled from the spec: MustGetDuration reads a resolved duration
option; durations are modelled as Nat (nanoseconds). -/
def MustGetDuration (cmd : Command) (flag : String) : Nat := cmd.durationFlags flag

/-- IsBuiltinCommand: checks cmd.Use against the hard-coded list of the
names of commands that cobra provides out-of-the-box. -/
def IsBuiltinCommand (cmd : Command) : Bool :=
  ["help [command]", "completion [command]"].contains cmd.use

/-- One registered pflag as SyncViperPreRunE observes it: its name, its
current textual value, whether it was explicitly set on the invocation
(Changed), and the type coercion performed by FlagSet.Set — parseOk tells
whether a given text coerces to the flag's declared type. -/
structure PFlag where
  name : String
  value : String
  changed : Bool
  parseOk : String → Bool

/-- pflag FlagSet.Set on a single flag: on coercion success the text is
stored and the flag is marked Changed; on coercion failure the flag is left
untouched and an error is returned (its exact message is irrelevant here —
the caller in this package discards it). -/
def pflagSet (f : PFlag) (text : String) : PFlag × Option GoError :=
  if f.parseOk text then ({ f with value := text, changed := true }, none)
  else (f, some (.msg ("invalid argument for flag " ++ f.name)))

/-- The environment-variable key viper binds a flag to (source lines 46 and
56-57): the uppercased, dash-to-underscore prefix, an underscore, then the
flag name with dashes mapped to underscores and uppercased. -/
def envKey (pfxU : String) (flagName : String) : String :=
  pfxU ++ "_" ++ goToUpper (dashToUnderscore flagName)

/-- The per-flag body of the VisitAll closure in SyncViperPreRunE: when the
flag was not explicitly set (Changed is false) and the bound environment
variable is present (v.IsSet), apply the environment text through
FlagSet.Set; the error from Set is discarded — the source assigns it to the
blank identifier — so only the possibly-updated flag remains. The process
environment is a partial map; none stands for an unset variable (viper
keeps its default of treating an empty value as unset, so an empty-valued
variable is also none here). -/
def syncFlag (pfxU : String) (env : String → Option String) (f : PFlag) : PFlag :=
  match env (envKey pfxU f.name) with
  | some val => if !f.changed then (pflagSet f val).1 else f
  | none => f

/-- SyncViperPreRunE: the run func it returns, acting on the command's
registered flags given the process environment. It is a no-op for builtin
commands; otherwise every flag is visited with syncFlag. The returned error
is nil on every path of the source. -/
def SyncViperPreRunE (pfx : String) (env : String → Option String)
    (cmd : Command) (flags : List PFlag) : List PFlag × Option GoError :=
  let pfxU := dashToUnderscore (goToUpper pfx)
  if IsBuiltinCommand cmd then (flags, none)
  else (flags.map (syncFlag pfxU env), none)

/-- CobraRunFunc over an explicit world state σ: the Go run funcs take
(cmd, args) and mutate ambient global state; here that state is threaded
explicitly and the error is returned alongside it. -/
def CobraRunFunc (σ : Type) : Type :=
  Command → List String → σ → σ × Option GoError

/-- CommandStack: chains run funcs into one; each is invoked in order with
the same cmd and args, and the first non-nil error stops the loop and is
returned; nil is returned when the loop completes. -/
def CommandStack {σ : Type} : List (CobraRunFunc σ) → CobraRunFunc σ
  | [] => fun _ _ s => (s, none)
  | fn :: fns => fun cmd args s =>
    match fn cmd args s with
    | (s1, none) => CommandStack fns cmd args s1
    | (s1, some e) => (s1, some e)

/-- zerolog severity levels. -/
inductive ZLevel where
  | trace | debug | info | warn | error | fatal | panic
deriving DecidableEq, Repr

/-- The global zerolog state the logging hook mutates: the process-wide
minimum severity (zerolog.SetGlobalLevel) and whether log.Logger has been
replaced with a ConsoleWriter output (the human-readable renderer). -/
structure LogState where
  globalLevel : ZLevel
  consoleWriter : Bool
deriving DecidableEq, Repr

/-- Ambient process facts read by the hooks: whether standard output is
attached to a terminal (isatty.IsTerminal on os.Stdout). -/
structure Sys where
  stdoutIsTerminal : Bool
deriving DecidableEq, Repr

/-- ZeroLogPreRunE: the run func it returns. Builtins no-op. Otherwise the
format flag is handled first: "human", or "auto" when stdout is a terminal,
replaces the global logger output with a console writer; any other format
value is not examined. Then the lowercased level flag selects the global
level through a seven-way switch, and any other value returns an unknown
log level error. The pre-run emission through log.WithLevel goes to the
external logger collaborator and carries no configuration state, so it is
not part of LogState; prerunLevel is kept for signature fidelity. -/
def ZeroLogPreRunE (flagPfx : String) (prerunLevel : ZLevel) (cmd : Command)
    (sys : Sys) (st : LogState) : LogState × Option GoError :=
  let pfx := defaultEmpty flagPfx "log"
  if IsBuiltinCommand cmd then (st, none)
  else
    let format := MustGetString cmd (pfx ++ "-format")
    let st1 := if format == "human" || (format == "auto" && sys.stdoutIsTerminal)
      then { st with consoleWriter := true } else st
    let level := goToLower (MustGetString cmd (pfx ++ "-level"))
    if level == "trace" then ({ st1 with globalLevel := .trace }, none)
    else if level == "debug" then ({ st1 with globalLevel := .debug }, none)
    else if level == "info" then ({ st1 with globalLevel := .info }, none)
    else if level == "warn" then ({ st1 with globalLevel := .warn }, none)
    else if level == "error" then ({ st1 with globalLevel := .error }, none)
    else if level == "fatal" then ({ st1 with globalLevel := .fatal }, none)
    else if level == "panic" then ({ st1 with globalLevel := .panic }, none)
    else (st1, some (.msg ("unknown log level: " ++ level)))

/-- What initJaegerTracer installs as the global tracer provider: an
always-sampling provider with a batched span processor over the exporter
built for the endpoint, and the service-name resource attribute. -/
structure TracerProviderCfg where
  alwaysSample : Bool
  batchedExporterEndpoint : String
  serviceName : String
deriving DecidableEq, Repr

/-- The text-map propagator initJaegerTracer installs. -/
inductive Propagator where
  | w3cTraceContext
deriving DecidableEq, Repr

/-- Global OpenTelemetry state: the installed tracer provider and text-map
propagator; none means uninstalled (the otel defaults). -/
structure OtelState where
  tracerProvider : Option TracerProviderCfg
  propagator : Option Propagator
deriving DecidableEq, Repr

/-- initJaegerTracer: jaeger.New is external exporter construction, modelled
by jnew as a function of the endpoint (some e = construction error). On
success the global tracer provider and the W3C trace-context propagator are
installed. -/
def initJaegerTracer (jnew : String → Option GoError)
    (endpoint serviceName : String) (st : OtelState) :
    OtelState × Option GoError :=
  match jnew endpoint with
  | some e => (st, some e)
  | none =>
    ({ tracerProvider := some { alwaysSample := true,
                                batchedExporterEndpoint := endpoint,
                                serviceName := serviceName },
       propagator := some .w3cTraceContext }, none)

/-- OpenTelemetryPreRunE: the run func it returns. Builtins no-op. The
lowercased provider flag selects: "none" does nothing, "jaeger" runs
initJaegerTracer on the endpoint and service-name flags and returns its
result directly, and any other value returns an unknown tracing provider
error. -/
def OpenTelemetryPreRunE (flagPfx : String) (prerunLevel : ZLevel)
    (jnew : String → Option GoError) (cmd : Command) (st : OtelState) :
    OtelState × Option GoError :=
  let pfx := defaultEmpty flagPfx "otel"
  if IsBuiltinCommand cmd then (st, none)
  else
    let provider := goToLower (MustGetString cmd (pfx ++ "-provider"))
    if provider == "none" then (st, none)
    else if provider == "jaeger" then
      initJaegerTracer jnew
        (MustGetString cmd (pfx ++ "-jaeger-endpoint"))
        (MustGetString cmd (pfx ++ "-jaeger-service-name")) st
    else (st, some (.msg ("unknown tracing provider: " ++ provider)))

/-- TLS credentials as loaded from a cert/key file pair. -/
structure TLSCreds where
  certFile : String
  keyFile : String
deriving DecidableEq, Repr

/-- The filesystem as credentials.NewServerTLSFromFile sees it: whether a
given cert/key pair loads, and the load error when it does not. -/
structure FileSys where
  tlsLoadOk : String → String → Bool
  tlsLoadErr : String → String → GoError

/-- credentials.NewServerTLSFromFile over the modelled filesystem. -/
def loadServerTLS (fs : FileSys) (certPath keyPath : String) :
    Except GoError TLSCreds :=
  if fs.tlsLoadOk certPath keyPath then .ok ⟨certPath, keyPath⟩
  else .error (fs.tlsLoadErr certPath keyPath)

/-- The grpc.Server value GrpcServerFromFlags constructs: the keepalive
max-connection-age server option and the optional TLS credentials option
(none = plaintext). -/
structure GrpcServer where
  maxConnAge : Nat
  creds : Option TLSCreds
deriving DecidableEq, Repr

/-- GrpcServerFromFlags: three-way switch on the cert/key paths — both
empty constructs a plaintext server (the warning emission goes to the
external logger), both set loads the credentials and constructs a TLS
server (a load failure is returned as the error), and a partial pair fails
with the must-provide-both error. -/
def GrpcServerFromFlags (fs : FileSys) (cmd : Command) (flagPfx : String) :
    Except GoError GrpcServer :=
  let pfx := defaultEmpty flagPfx "grpc"
  let maxAge := MustGetDuration cmd (pfx ++ "-max-conn-age")
  let certPath := MustGetStringExpanded cmd (pfx ++ "-tls-cert-path")
  let keyPath := MustGetStringExpanded cmd (pfx ++ "-tls-key-path")
  if certPath == "" && keyPath == "" then
    .ok { maxConnAge := maxAge, creds := none }
  else if certPath != "" && keyPath != "" then
    match loadServerTLS fs certPath keyPath with
    | .ok creds => .ok { maxConnAge := maxAge, creds := some creds }
    | .error e => .error e
  else
    .error (.msg ("failed to start gRPC server: must provide both --" ++ pfx
      ++ "-tls-cert-path and --" ++ pfx ++ "-tls-key-path"))

/-- One observable network action taken by a listen func. -/
inductive NetEvent where
  | tcpListen (addr : String)
  | grpcServe
  | httpServe (addr : String)
  | httpServeTLS (addr certPath keyPath : String)
deriving DecidableEq, Repr

/-- The network as GrpcListenFromFlags sees it: the outcome of net.Listen
on an address, and the outcome of srv.Serve — grpc Serve returns nil
exactly on the server's own Stop/GracefulStop, its clean-shutdown signal. -/
structure GrpcNet where
  listenErr : String → Option GoError
  serveErr : Option GoError

/-- GrpcListenFromFlags: returns nil immediately when the enabled flag is
false; otherwise binds the addr flag (a bind failure is wrapped as failed
to listen), serves, and wraps any non-nil Serve error as failed to serve.
The network actions taken are returned as the event trace. -/
def GrpcListenFromFlags (net : GrpcNet) (cmd : Command) (flagPfx : String)
    (srv : GrpcServer) : List NetEvent × Option GoError :=
  let pfx := defaultEmpty flagPfx "grpc"
  if !MustGetBool cmd (pfx ++ "-enabled") then ([], none)
  else
    let addr := MustGetStringExpanded cmd (pfx ++ "-addr")
    match net.listenErr addr with
    | some e =>
      ([.tcpListen addr], some (.wrap "failed to listen on addr for gRPC server" e))
    | none =>
      match net.serveErr with
      | some e => ([.tcpListen addr, .grpcServe], some (.wrap "failed to serve gRPC" e))
      | none => ([.tcpListen addr, .grpcServe], none)

/-- The http.Server value HttpServerFromFlags constructs. -/
structure HttpServer where
  addr : String
deriving DecidableEq, Repr

/-- HttpServerFromFlags: builds the server from the addr flag only. -/
def HttpServerFromFlags (cmd : Command) (flagPfx : String) : HttpServer :=
  let pfx := defaultEmpty flagPfx "http"
  { addr := MustGetStringExpanded cmd (pfx ++ "-addr") }

/-- http.ErrServerClosed: the sentinel error ListenAndServe returns after
the server's own Shutdown or Close. -/
def errServerClosed : GoError := .msg "http: Server closed"

/-- The network as HttpListenFromFlags sees it: the results of
srv.ListenAndServe and srv.ListenAndServeTLS (none = nil error; a clean
shutdown surfaces as errServerClosed). -/
structure HttpNet where
  serveResult : String → Option GoError
  serveTLSResult : String → String → String → Option GoError

/-- HttpListenFromFlags: returns nil immediately when the enabled flag is
false (note: this function does not default its flag prefix). Otherwise a
three-way switch on the cert/key paths: both empty serves plaintext, both
set serves TLS, a partial pair fails with the must-provide-both error
before any network action. A serve result that is nil or the server-closed
sentinel is success; any other error is wrapped. -/
def HttpListenFromFlags (net : HttpNet) (cmd : Command) (flagPfx : String)
    (srv : HttpServer) : List NetEvent × Option GoError :=
  if !MustGetBool cmd (flagPfx ++ "-enabled") then ([], none)
  else
    let certPath := MustGetStringExpanded cmd (flagPfx ++ "-tls-cert-path")
    let keyPath := MustGetStringExpanded cmd (flagPfx ++ "-tls-key-path")
    if certPath == "" && keyPath == "" then
      ([.httpServe srv.addr],
        match net.serveResult srv.addr with
        | none => none
        | some e =>
          if e == errServerClosed then none
          else some (.wrap "failed while serving http" e))
    else if certPath != "" && keyPath != "" then
      ([.httpServeTLS srv.addr certPath keyPath],
        match net.serveTLSResult srv.addr certPath keyPath with
        | none => none
        | some e =>
          if e == errServerClosed then none
          else some (.wrap "failed while serving https" e))
    else
      ([], some (.msg ("failed to start http server: must provide both --"
        ++ flagPfx ++ "-tls-cert-path and --" ++ flagPfx ++ "-tls-key-path")))

/-- Replacing one string flag value on an invocation context. -/
def setStringFlag (cmd : Command) (k v : String) : Command :=
  { cmd with stringFlags := fun n => if n == k then v else cmd.stringFlags n }

/-- Sequential success of a hook list: every hook succeeds when run in list
order, each observing the state left by the previous one. -/
def stackOk {σ : Type} : List (CobraRunFunc σ) → Command → List String → σ → Bool
  | [], _, _, _ => true
  | fn :: fns, cmd, args, s =>
    match fn cmd args s with
    | (s1, none) => stackOk fns cmd args s1
    | (_, some _) => false

/-- The seven recognized log levels, as the switch in ZeroLogPreRunE maps
them. -/
def parseLevel (s : String) : Option ZLevel :=
  if s == "trace" then some .trace
  else if s == "debug" then some .debug
  else if s == "info" then some .info
  else if s == "warn" then some .warn
  else if s == "error" then some .error
  else if s == "fatal" then some .fatal
  else if s == "panic" then some .panic
  else none

theorem string_append_cancel_left {a b c : String} (h : a ++ b = a ++ c) :
    b = c := by
  apply String.ext
  have hd : a.data ++ b.data = a.data ++ c.data := by
    rw [← String.data_append, ← String.data_append, h]
  exact List.append_cancel_left hd

theorem string_append_ne_of_ne {a b c : String} (h : b ≠ c) :
    a ++ b ≠ a ++ c :=
  fun he => h (string_append_cancel_left he)

/-- A plain non-builtin invocation context used by concrete witnesses. -/
def cmdServe : Command :=
  { use := "serve"
    stringFlags := fun _ => ""
    boolFlags := fun _ => false
    durationFlags := fun _ => 0 }

/-- Concrete hook that succeeds, incrementing a counter state. -/
def hookA : CobraRunFunc Nat := fun _ _ n => (n + 1, none)

/-- Concrete hook that fails. -/
def hookB : CobraRunFunc Nat := fun _ _ n => (n, some (.msg "B failed"))

/-- Concrete hook that succeeds, adding 100 to the counter state. -/
def hookC : CobraRunFunc Nat := fun _ _ n => (n + 100, none)

/-- C3: the hook returned by CommandStack runs the hooks in list order on
the same invocation context (the identical cmd and args are passed to each,
with the ambient state threaded in order); it stops at the first hook that
returns an error and returns exactly that error, the final state being the
one left by the failing hook so later hooks never run; and it returns
success exactly when every hook in the list succeeds in sequence. -/
theorem commandStack_fail_fast_and_success {σ : Type} (cmd : Command)
    (args : List String) :
    (∀ (pre post : List (CobraRunFunc σ)) (fn : CobraRunFunc σ)
        (s s1 s2 : σ) (e : GoError),
        CommandStack pre cmd args s = (s1, none) →
        fn cmd args s1 = (s2, some e) →
        CommandStack (pre ++ fn :: post) cmd args s = (s2, some e))
    ∧ (∀ (fns : List (CobraRunFunc σ)) (s : σ),
        (CommandStack fns cmd args s).2 = none ↔ stackOk fns cmd args s = true) := by
  constructor
  · intro pre post fn s s1 s2 e hpre hfn
    induction pre generalizing s with
    | nil =>
      simp only [CommandStack, Prod.mk.injEq] at hpre
      obtain ⟨hs, -⟩ := hpre
      subst hs
      simp only [List.nil_append, CommandStack]
      rw [hfn]
    | cons g gs ih =>
      simp only [List.cons_append, CommandStack] at hpre ⊢
      cases hg : g cmd args s with
      | mk t r =>
        cases r with
        | none =>
          rw [hg] at hpre
          exact ih t hpre
        | some e2 =>
          rw [hg] at hpre
          simp at hpre
  · intro fns s
    induction fns generalizing s with
    | nil => simp [CommandStack, stackOk]
    | cons fn fns ih =>
      simp only [CommandStack, stackOk]
      cases hf : fn cmd args s with
      | mk t r =>
        cases r with
        | none => exact ih t
        | some e => simp

/-- Witness for C3 at the spec's [A, B, C] example: A runs (counter 0 to
1), B fails, C never runs; the overall result is B's error with the state A
left. -/
theorem commandStack_fail_fast_and_success_witness :
    CommandStack [hookA, hookB, hookC] cmdServe [] 0
      = (1, some (.msg "B failed")) :=
  (commandStack_fail_fast_and_success cmdServe []).1 [hookA] [hookC] hookB
    0 1 1 (.msg "B failed") rfl rfl

/-- Environment fixture: only APP_MODE is set. -/
def envApp : String → Option String := fun k =>
  if k == "APP_MODE" then some "fast" else none

/-- Flag fixture: explicitly set on the invocation, environment variable
present. -/
def flagMode : PFlag :=
  { name := "mode", value := "slow", changed := true, parseOk := fun _ => true }

/-- Flag fixture: left at its default, environment variable unset. -/
def flagQuiet : PFlag :=
  { name := "quiet", value := "false", changed := false
    parseOk := fun s => s == "true" || s == "false" }

/-- C1: on a non-builtin command the resolver hook visits each registered
flag independently; an explicitly set flag (Changed) is returned unchanged
even when its environment variable is present, a flag whose environment
variable is unset is returned unchanged, and the environment override is
applied (through the flag's Set coercion path) exactly when the flag is not
Changed and the variable is present. -/
theorem syncViper_explicit_wins_missing_env_noop (pfx : String)
    (env : String → Option String) (cmd : Command) (flags : List PFlag)
    (hb : IsBuiltinCommand cmd = false) :
    (SyncViperPreRunE pfx env cmd flags).1
        = flags.map (syncFlag (dashToUnderscore (goToUpper pfx)) env)
    ∧ (∀ f : PFlag, f.changed = true →
        syncFlag (dashToUnderscore (goToUpper pfx)) env f = f)
    ∧ (∀ f : PFlag,
        env (envKey (dashToUnderscore (goToUpper pfx)) f.name) = none →
        syncFlag (dashToUnderscore (goToUpper pfx)) env f = f)
    ∧ (∀ (f : PFlag) (val : String), f.changed = false →
        env (envKey (dashToUnderscore (goToUpper pfx)) f.name) = some val →
        syncFlag (dashToUnderscore (goToUpper pfx)) env f = (pflagSet f val).1) := by
  refine ⟨?_, ?_, ?_, ?_⟩
  · simp [SyncViperPreRunE, hb]
  · intro f hc
    unfold syncFlag
    cases env (envKey (dashToUnderscore (goToUpper pfx)) f.name) <;> simp [hc]
  · intro f he
    unfold syncFlag
    rw [he]
  · intro f val hc he
    unfold syncFlag
    rw [he]
    simp [hc]

/-- Witness for C1: the explicitly set mode flag keeps its value "slow"
although APP_MODE is present, and the quiet flag with no environment
variable keeps its default. -/
theorem syncViper_explicit_wins_missing_env_noop_witness :
    syncFlag (dashToUnderscore (goToUpper "app")) envApp flagMode = flagMode
    ∧ syncFlag (dashToUnderscore (goToUpper "app")) envApp flagQuiet = flagQuiet :=
  ⟨(syncViper_explicit_wins_missing_env_noop "app" envApp cmdServe
      [flagMode] rfl).2.1 flagMode rfl,
   (syncViper_explicit_wins_missing_env_noop "app" envApp cmdServe
      [flagQuiet] rfl).2.2.1 flagQuiet rfl⟩

/-- Environment fixture: APP_COUNT carries text that does not coerce to the
count flag's type. -/
def envCount : String → Option String := fun k =>
  if k == "APP_COUNT" then some "banana" else none

/-- Flag fixture: a flag whose declared type only accepts "0" or "1". -/
def flagCount : PFlag :=
  { name := "count", value := "0", changed := false
    parseOk := fun s => s == "0" || s == "1" }

/-- C4 counterexample: the environment text "banana" cannot be coerced to
the count flag's type — FlagSet.Set reports an error — yet the hook returns
nil rather than that error, because the source assigns the Set result to
the blank identifier. -/
theorem syncViper_coercion_error_swallowed_cex :
    (pflagSet flagCount "banana").2.isSome = true
    ∧ (SyncViperPreRunE "app" envCount cmdServe [flagCount]).2 = none := by
  exact ⟨rfl, rfl⟩

/-- C4 amended: the resolver hook raises no error for missing environment
variables — in fact it returns nil on every input — and a coercion failure
from a malformed environment value is silently swallowed: the Set error is
discarded and the affected flag keeps its previous value. -/
theorem syncViper_no_error_coercion_swallowed (pfx : String)
    (env : String → Option String) (cmd : Command) (flags : List PFlag) :
    (SyncViperPreRunE pfx env cmd flags).2 = none
    ∧ (∀ (f : PFlag) (val : String),
        env (envKey (dashToUnderscore (goToUpper pfx)) f.name) = some val →
        f.parseOk val = false →
        syncFlag (dashToUnderscore (goToUpper pfx)) env f = f) := by
  constructor
  · unfold SyncViperPreRunE
    split <;> rfl
  · intro f val he hp
    unfold syncFlag
    rw [he]
    cases hc : f.changed
    · simp [hc, pflagSet, hp]
    · simp [hc]

/-- Witness for the amended C4: on the malformed APP_COUNT environment the
hook still returns nil and the count flag is unchanged. -/
theorem syncViper_no_error_coercion_swallowed_witness :
    (SyncViperPreRunE "app" envCount cmdServe [flagCount]).2 = none
    ∧ syncFlag (dashToUnderscore (goToUpper "app")) envCount flagCount
        = flagCount :=
  ⟨(syncViper_no_error_coercion_swallowed "app" envCount cmdServe [flagCount]).1,
   (syncViper_no_error_coercion_swallowed "app" envCount cmdServe
      [flagCount]).2 flagCount "banana" rfl rfl⟩

/-- The logging state after the format handling step of ZeroLogPreRunE:
the console writer is installed for format "human", or "auto" when stdout
is a terminal. -/
def zlFmtState (pfx : String) (cmd : Command) (sys : Sys) (st : LogState) :
    LogState :=
  if cmd.stringFlags (defaultEmpty pfx "log" ++ "-format") == "human"
      || (cmd.stringFlags (defaultEmpty pfx "log" ++ "-format") == "auto"
          && sys.stdoutIsTerminal)
  then { st with consoleWriter := true } else st

/-- Characterization of a ZeroLogPreRunE run on a non-builtin command: the
format side effect happens first, then the lowercased level dispatches
through the seven-way switch summarized by parseLevel. -/
theorem zeroLog_run (pfx : String) (prl : ZLevel) (cmd : Command) (sys : Sys)
    (st : LogState) (hb : IsBuiltinCommand cmd = false) :
    ZeroLogPreRunE pfx prl cmd sys st
      = (match parseLevel (goToLower (cmd.stringFlags
            (defaultEmpty pfx "log" ++ "-level"))) with
         | some L => ({ zlFmtState pfx cmd sys st with globalLevel := L }, none)
         | none => (zlFmtState pfx cmd sys st,
             some (.msg ("unknown log level: "
               ++ goToLower (cmd.stringFlags
                    (defaultEmpty pfx "log" ++ "-level")))))) := by
  unfold ZeroLogPreRunE parseLevel zlFmtState MustGetString
  simp only [hb, Bool.false_eq_true, if_false]
  repeat' split
  all_goals simp_all

theorem isBuiltin_setStringFlag (cmd : Command) (k v : String) :
    IsBuiltinCommand (setStringFlag cmd k v) = IsBuiltinCommand cmd := rfl

theorem setStringFlag_get_same (cmd : Command) (k v : String) :
    (setStringFlag cmd k v).stringFlags k = v := by
  simp [setStringFlag]

theorem setStringFlag_get_other (cmd : Command) (k v n : String) (h : n ≠ k) :
    (setStringFlag cmd k v).stringFlags n = cmd.stringFlags n := by
  have hbeq : (n == k) = false := beq_eq_false_iff_ne.mpr h
  simp [setStringFlag, hbeq]
  intro he
  exact absurd he h

/-- System fixture: stdout not attached to a terminal. -/
def sysNoTty : Sys := { stdoutIsTerminal := false }

/-- Command fixture: format "human", level "bogus". -/
def cmdHumanBogus : Command :=
  { use := "serve"
    stringFlags := fun k =>
      if k == "log-format" then "human"
      else if k == "log-level" then "bogus" else ""
    boolFlags := fun _ => false
    durationFlags := fun _ => 0 }

/-- Command fixture: format "auto", level "warn". -/
def cmdWarnAuto : Command :=
  { use := "serve"
    stringFlags := fun k =>
      if k == "log-format" then "auto"
      else if k == "log-level" then "warn" else ""
    boolFlags := fun _ => false
    durationFlags := fun _ => 0 }

/-- Command fixture: format "xml" (outside the documented set), level
"info". -/
def cmdXmlInfo : Command :=
  { use := "serve"
    stringFlags := fun k =>
      if k == "log-format" then "xml"
      else if k == "log-level" then "info" else ""
    boolFlags := fun _ => false
    durationFlags := fun _ => 0 }

/-- C5 counterexample: on level "bogus" with format "human" the hook fails
with the unknown-level error, but the prior global logging state is NOT
left unchanged — the console-writer installation performed by the format
handling has already happened when the error returns. -/
theorem zeroLog_unknown_level_state_changed_cex :
    ZeroLogPreRunE "" .debug cmdHumanBogus sysNoTty
        { globalLevel := .info, consoleWriter := false }
      = ({ globalLevel := .info, consoleWriter := true },
          some (.msg "unknown log level: bogus"))
    ∧ ({ globalLevel := .info, consoleWriter := true } : LogState)
        ≠ { globalLevel := .info, consoleWriter := false } := by
  exact ⟨rfl, by decide⟩

/-- C5 amended: on a non-builtin command, a level whose lowercase form is
one of the seven recognized values sets the process-wide minimum severity
and the hook succeeds; any other value fails with the unknown-level error
and leaves the global minimum severity unchanged, and when the format
handling selected no console writer (format neither "human" nor "auto" on
a terminal) the whole global logging state is unchanged — the
console-writer side effect, when selected, persists despite the error. -/
theorem zeroLog_level_resolution (pfx : String) (prl : ZLevel)
    (cmd : Command) (sys : Sys) (st : LogState)
    (hb : IsBuiltinCommand cmd = false) :
    (∀ L : ZLevel,
      parseLevel (goToLower (cmd.stringFlags
          (defaultEmpty pfx "log" ++ "-level"))) = some L →
      (ZeroLogPreRunE pfx prl cmd sys st).1.globalLevel = L
      ∧ (ZeroLogPreRunE pfx prl cmd sys st).2 = none)
    ∧ (parseLevel (goToLower (cmd.stringFlags
          (defaultEmpty pfx "log" ++ "-level"))) = none →
      (ZeroLogPreRunE pfx prl cmd sys st).2
          = some (.msg ("unknown log level: "
              ++ goToLower (cmd.stringFlags (defaultEmpty pfx "log" ++ "-level"))))
      ∧ (ZeroLogPreRunE pfx prl cmd sys st).1.globalLevel = st.globalLevel
      ∧ ((cmd.stringFlags (defaultEmpty pfx "log" ++ "-format") ≠ "human"
          ∧ ¬(cmd.stringFlags (defaultEmpty pfx "log" ++ "-format") = "auto"
              ∧ sys.stdoutIsTerminal = true)) →
        (ZeroLogPreRunE pfx prl cmd sys st).1 = st)) := by
  have hrun := zeroLog_run pfx prl cmd sys st hb
  constructor
  · intro L hL
    rw [hrun, hL]
    exact ⟨rfl, rfl⟩
  · intro hN
    rw [hN] at hrun
    refine ⟨?_, ?_, ?_⟩
    · rw [hrun]
    · rw [hrun]
      show (zlFmtState pfx cmd sys st).globalLevel = st.globalLevel
      unfold zlFmtState
      split <;> rfl
    · rintro ⟨hf1, hf2⟩
      have h1 : (cmd.stringFlags (defaultEmpty pfx "log" ++ "-format")
          == "human") = false := beq_eq_false_iff_ne.mpr hf1
      have h2 : (cmd.stringFlags (defaultEmpty pfx "log" ++ "-format")
          == "auto" && sys.stdoutIsTerminal) = false := by
        by_cases ha : cmd.stringFlags (defaultEmpty pfx "log" ++ "-format") = "auto"
        · have ht : sys.stdoutIsTerminal = false := by
            cases h : sys.stdoutIsTerminal
            · rfl
            · exact absurd ⟨ha, h⟩ hf2
          simp [ht]
        · simp [beq_eq_false_iff_ne.mpr ha]
      rw [hrun]
      show zlFmtState pfx cmd sys st = st
      simp [zlFmtState, h1, h2]

/-- Witness for the amended C5: "warn" sets the global level to warn with
no error, and "bogus" (via cmdHumanBogus) errors while keeping the global
severity at info. -/
theorem zeroLog_level_resolution_witness :
    ((ZeroLogPreRunE "" .debug cmdWarnAuto sysNoTty
        { globalLevel := .info, consoleWriter := false }).1.globalLevel
        = ZLevel.warn
      ∧ (ZeroLogPreRunE "" .debug cmdWarnAuto sysNoTty
          { globalLevel := .info, consoleWriter := false }).2 = none)
    ∧ (ZeroLogPreRunE "" .debug cmdHumanBogus sysNoTty
          { globalLevel := .info, consoleWriter := false }).1.globalLevel
        = ZLevel.info :=
  ⟨(zeroLog_level_resolution "" .debug cmdWarnAuto sysNoTty
      { globalLevel := .info, consoleWriter := false } rfl).1 .warn rfl,
   ((zeroLog_level_resolution "" .debug cmdHumanBogus sysNoTty
      { globalLevel := .info, consoleWriter := false } rfl).2 rfl).2.1⟩

/-- C6 counterexample: with the unrecognized format "xml" and level "info"
the hook succeeds — no unrecognized-enumeration error is surfaced — and
global logging state is mutated (the level is set), contradicting the
claim that an out-of-set format fails and leaves state at its prior
value. -/
theorem zeroLog_format_not_validated_cex :
    ZeroLogPreRunE "" .debug cmdXmlInfo sysNoTty
        { globalLevel := .warn, consoleWriter := false }
      = ({ globalLevel := .info, consoleWriter := false }, none) := by
  exact rfl

/-- C6 amended: the hook performs no validation of the format value: a
format outside the accepted set is silently treated like "json" (the
machine-structured default) — the run is identical to the same run with
format "json", and in particular the console writer is not installed and
no error arises from the format. -/
theorem zeroLog_unrecognized_format_ignored (pfx : String) (prl : ZLevel)
    (cmd : Command) (sys : Sys) (st : LogState)
    (hb : IsBuiltinCommand cmd = false)
    (hf : cmd.stringFlags (defaultEmpty pfx "log" ++ "-format") ≠ "auto"
        ∧ cmd.stringFlags (defaultEmpty pfx "log" ++ "-format") ≠ "human"
        ∧ cmd.stringFlags (defaultEmpty pfx "log" ++ "-format") ≠ "json") :
    ZeroLogPreRunE pfx prl cmd sys st
      = ZeroLogPreRunE pfx prl
          (setStringFlag cmd (defaultEmpty pfx "log" ++ "-format") "json")
          sys st
    ∧ (ZeroLogPreRunE pfx prl cmd sys st).1.consoleWriter
        = st.consoleWriter := by
  obtain ⟨hfa, hfh, -⟩ := hf
  have hb2 : IsBuiltinCommand
      (setStringFlag cmd (defaultEmpty pfx "log" ++ "-format") "json") = false := hb
  have hkey : (defaultEmpty pfx "log" ++ "-level")
      ≠ (defaultEmpty pfx "log" ++ "-format") :=
    string_append_ne_of_ne (by decide)
  have hlvl : (setStringFlag cmd (defaultEmpty pfx "log" ++ "-format")
      "json").stringFlags (defaultEmpty pfx "log" ++ "-level")
      = cmd.stringFlags (defaultEmpty pfx "log" ++ "-level") :=
    setStringFlag_get_other _ _ _ _ hkey
  have hfmt : (setStringFlag cmd (defaultEmpty pfx "log" ++ "-format")
      "json").stringFlags (defaultEmpty pfx "log" ++ "-format") = "json" :=
    setStringFlag_get_same _ _ _
  have hstL : zlFmtState pfx cmd sys st = st := by
    simp [zlFmtState, beq_eq_false_iff_ne.mpr hfa, beq_eq_false_iff_ne.mpr hfh]
  have hstR : zlFmtState pfx
      (setStringFlag cmd (defaultEmpty pfx "log" ++ "-format") "json") sys st
      = st := by
    simp [zlFmtState, hfmt]
  constructor
  · rw [zeroLog_run pfx prl cmd sys st hb, zeroLog_run pfx prl _ sys st hb2,
      hlvl, hstL, hstR]
  · rw [zeroLog_run pfx prl cmd sys st hb, hstL]
    cases hc : parseLevel (goToLower (cmd.stringFlags
        (defaultEmpty pfx "log" ++ "-level"))) <;> simp [hc]

/-- Witness for the amended C6: the "xml" run equals the "json" run on the
same command, and the console writer stays uninstalled. -/
theorem zeroLog_unrecognized_format_ignored_witness :
    ZeroLogPreRunE "" .debug cmdXmlInfo sysNoTty
        { globalLevel := .warn, consoleWriter := false }
      = ZeroLogPreRunE "" .debug
          (setStringFlag cmdXmlInfo (defaultEmpty "" "log" ++ "-format") "json")
          sysNoTty { globalLevel := .warn, consoleWriter := false }
    ∧ (ZeroLogPreRunE "" .debug cmdXmlInfo sysNoTty
        { globalLevel := .warn, consoleWriter := false }).1.consoleWriter
        = false :=
  zeroLog_unrecognized_format_ignored "" .debug cmdXmlInfo sysNoTty
    { globalLevel := .warn, consoleWriter := false } rfl
    ⟨by decide, by decide, by decide⟩

/-- C10: replacing the level flag value (for ZeroLogPreRunE) or the
provider flag value (for OpenTelemetryPreRunE) by its lowercase form does
not change the hook's result — the hooks lowercase these values before
matching, so they accept them case-insensitively. -/
theorem hooks_case_insensitive (pfxL pfxO : String) (prl : ZLevel)
    (jnew : String → Option GoError) (cmd : Command) (sys : Sys)
    (stL : LogState) (stO : OtelState) :
    ZeroLogPreRunE pfxL prl
        (setStringFlag cmd (defaultEmpty pfxL "log" ++ "-level")
          (goToLower (cmd.stringFlags (defaultEmpty pfxL "log" ++ "-level"))))
        sys stL
      = ZeroLogPreRunE pfxL prl cmd sys stL
    ∧ OpenTelemetryPreRunE pfxO prl jnew
        (setStringFlag cmd (defaultEmpty pfxO "otel" ++ "-provider")
          (goToLower (cmd.stringFlags (defaultEmpty pfxO "otel" ++ "-provider"))))
        stO
      = OpenTelemetryPreRunE pfxO prl jnew cmd stO := by
  constructor
  · by_cases hbi : IsBuiltinCommand cmd = true
    · simp [ZeroLogPreRunE, isBuiltin_setStringFlag, hbi]
    · have hb : IsBuiltinCommand cmd = false := by simpa using hbi
      have hb2 : IsBuiltinCommand
          (setStringFlag cmd (defaultEmpty pfxL "log" ++ "-level")
            (goToLower (cmd.stringFlags (defaultEmpty pfxL "log" ++ "-level"))))
          = false := by
        rw [isBuiltin_setStringFlag]; exact hb
      rw [zeroLog_run pfxL prl _ sys stL hb2, zeroLog_run pfxL prl cmd sys stL hb]
      have e1 : Command.stringFlags
          (setStringFlag cmd (defaultEmpty pfxL "log" ++ "-level")
            (goToLower (cmd.stringFlags (defaultEmpty pfxL "log" ++ "-level"))))
          (defaultEmpty pfxL "log" ++ "-level")
          = goToLower (cmd.stringFlags (defaultEmpty pfxL "log" ++ "-level")) :=
        setStringFlag_get_same _ _ _
      have e2 : zlFmtState pfxL
          (setStringFlag cmd (defaultEmpty pfxL "log" ++ "-level")
            (goToLower (cmd.stringFlags (defaultEmpty pfxL "log" ++ "-level"))))
          sys stL = zlFmtState pfxL cmd sys stL := by
        unfold zlFmtState
        rw [setStringFlag_get_other _ _ _ _ (string_append_ne_of_ne (by decide))]
      rw [e1, goToLower_idem, e2]
  · by_cases hbi : IsBuiltinCommand cmd = true
    · simp [OpenTelemetryPreRunE, isBuiltin_setStringFlag, hbi]
    · have hb : IsBuiltinCommand cmd = false := by simpa using hbi
      unfold OpenTelemetryPreRunE MustGetString
      rw [isBuiltin_setStringFlag]
      simp only [hb, Bool.false_eq_true, if_false]
      rw [setStringFlag_get_same, goToLower_idem,
        setStringFlag_get_other _ _ _ _ (string_append_ne_of_ne (by decide)),
        setStringFlag_get_other _ _ _ _ (string_append_ne_of_ne (by decide))]

/-- Otel command fixture: provider "none". -/
def cmdOtelNone : Command :=
  { use := "serve"
    stringFlags := fun k => if k == "otel-provider" then "none" else ""
    boolFlags := fun _ => false
    durationFlags := fun _ => 0 }

/-- Otel command fixture: provider "zipkin", which this package does not
support. -/
def cmdOtelZipkin : Command :=
  { use := "serve"
    stringFlags := fun k => if k == "otel-provider" then "zipkin" else ""
    boolFlags := fun _ => false
    durationFlags := fun _ => 0 }

/-- Exporter-construction fixture: jaeger.New always succeeds. -/
def jnewOk : String → Option GoError := fun _ => none

/-- C7: on a non-builtin command, a provider value whose lowercase form is
"none" performs no tracing side effect (the otel state is returned
untouched) and succeeds; any value whose lowercase form is neither "none"
nor "jaeger" fails with the unknown-tracing-provider error and leaves the
otel state unchanged — in particular an uninstalled global tracer stays
uninstalled. -/
theorem otel_provider_none_and_unknown (pfx : String) (prl : ZLevel)
    (jnew : String → Option GoError) (cmd : Command) (st : OtelState)
    (hb : IsBuiltinCommand cmd = false) :
    (goToLower (cmd.stringFlags (defaultEmpty pfx "otel" ++ "-provider"))
        = "none" →
      OpenTelemetryPreRunE pfx prl jnew cmd st = (st, none))
    ∧ (goToLower (cmd.stringFlags (defaultEmpty pfx "otel" ++ "-provider"))
        ≠ "none" →
       goToLower (cmd.stringFlags (defaultEmpty pfx "otel" ++ "-provider"))
        ≠ "jaeger" →
      OpenTelemetryPreRunE pfx prl jnew cmd st
        = (st, some (.msg ("unknown tracing provider: "
            ++ goToLower (cmd.stringFlags
                (defaultEmpty pfx "otel" ++ "-provider")))))) := by
  constructor
  · intro hn
    simp [OpenTelemetryPreRunE, MustGetString, hb, hn]
  · intro hn hj
    simp [OpenTelemetryPreRunE, MustGetString, hb,
      beq_eq_false_iff_ne.mpr hn, beq_eq_false_iff_ne.mpr hj]

/-- Witness for C7: provider "none" leaves the uninstalled otel state
untouched and succeeds; provider "zipkin" errors and leaves it untouched. -/
theorem otel_provider_none_and_unknown_witness :
    OpenTelemetryPreRunE "" .debug jnewOk cmdOtelNone
        { tracerProvider := none, propagator := none }
      = ({ tracerProvider := none, propagator := none }, none)
    ∧ OpenTelemetryPreRunE "" .debug jnewOk cmdOtelZipkin
        { tracerProvider := none, propagator := none }
      = ({ tracerProvider := none, propagator := none },
          some (.msg "unknown tracing provider: zipkin")) :=
  ⟨(otel_provider_none_and_unknown "" .debug jnewOk cmdOtelNone
      { tracerProvider := none, propagator := none } rfl).1 rfl,
   (otel_provider_none_and_unknown "" .debug jnewOk cmdOtelZipkin
      { tracerProvider := none, propagator := none } rfl).2
      (by decide) (by decide)⟩

/-- C2: the three-way branch on the TLS credential pair. For
GrpcServerFromFlags: both paths empty constructs a plaintext server (no
credentials option); both non-empty constructs a server carrying the loaded
credentials, and a certificate/key load failure fails construction with the
load error; exactly one non-empty fails with the must-provide-both error.
For the HTTP bootstrap, whose pair check runs in HttpListenFromFlags when
the server is enabled: exactly one non-empty fails with the
must-provide-both error before any network action, both empty serves
plaintext, and both non-empty serves TLS with the given files. -/
theorem tls_cert_key_pairing (fs : FileSys) (cmd : Command) (pfx pfxH : String)
    (net : HttpNet) (srv : HttpServer)
    (hen : cmd.boolFlags (pfxH ++ "-enabled") = true) :
    ((cmd.stringFlags (defaultEmpty pfx "grpc" ++ "-tls-cert-path") = ""
      ∧ cmd.stringFlags (defaultEmpty pfx "grpc" ++ "-tls-key-path") = "") →
      GrpcServerFromFlags fs cmd pfx
        = .ok { maxConnAge :=
                  cmd.durationFlags (defaultEmpty pfx "grpc" ++ "-max-conn-age"),
                creds := none })
    ∧ ((cmd.stringFlags (defaultEmpty pfx "grpc" ++ "-tls-cert-path") ≠ ""
      ∧ cmd.stringFlags (defaultEmpty pfx "grpc" ++ "-tls-key-path") ≠ ""
      ∧ fs.tlsLoadOk (cmd.stringFlags (defaultEmpty pfx "grpc" ++ "-tls-cert-path"))
          (cmd.stringFlags (defaultEmpty pfx "grpc" ++ "-tls-key-path")) = true) →
      GrpcServerFromFlags fs cmd pfx
        = .ok { maxConnAge :=
                  cmd.durationFlags (defaultEmpty pfx "grpc" ++ "-max-conn-age"),
                creds := some
                  ⟨cmd.stringFlags (defaultEmpty pfx "grpc" ++ "-tls-cert-path"),
                   cmd.stringFlags (defaultEmpty pfx "grpc" ++ "-tls-key-path")⟩ })
    ∧ ((cmd.stringFlags (defaultEmpty pfx "grpc" ++ "-tls-cert-path") ≠ ""
      ∧ cmd.stringFlags (defaultEmpty pfx "grpc" ++ "-tls-key-path") ≠ ""
      ∧ fs.tlsLoadOk (cmd.stringFlags (defaultEmpty pfx "grpc" ++ "-tls-cert-path"))
          (cmd.stringFlags (defaultEmpty pfx "grpc" ++ "-tls-key-path")) = false) →
      GrpcServerFromFlags fs cmd pfx
        = .error (fs.tlsLoadErr
            (cmd.stringFlags (defaultEmpty pfx "grpc" ++ "-tls-cert-path"))
            (cmd.stringFlags (defaultEmpty pfx "grpc" ++ "-tls-key-path"))))
    ∧ (((cmd.stringFlags (defaultEmpty pfx "grpc" ++ "-tls-cert-path") = ""
          ∧ cmd.stringFlags (defaultEmpty pfx "grpc" ++ "-tls-key-path") ≠ "")
        ∨ (cmd.stringFlags (defaultEmpty pfx "grpc" ++ "-tls-cert-path") ≠ ""
          ∧ cmd.stringFlags (defaultEmpty pfx "grpc" ++ "-tls-key-path") = "")) →
      GrpcServerFromFlags fs cmd pfx
        = .error (.msg ("failed to start gRPC server: must provide both --"
            ++ defaultEmpty pfx "grpc" ++ "-tls-cert-path and --"
            ++ defaultEmpty pfx "grpc" ++ "-tls-key-path")))
    ∧ ((cmd.stringFlags (pfxH ++ "-tls-cert-path") = ""
      ∧ cmd.stringFlags (pfxH ++ "-tls-key-path") = "") →
      (HttpListenFromFlags net cmd pfxH srv).1 = [.httpServe srv.addr])
    ∧ ((cmd.stringFlags (pfxH ++ "-tls-cert-path") ≠ ""
      ∧ cmd.stringFlags (pfxH ++ "-tls-key-path") ≠ "") →
      (HttpListenFromFlags net cmd pfxH srv).1
        = [.httpServeTLS srv.addr (cmd.stringFlags (pfxH ++ "-tls-cert-path"))
            (cmd.stringFlags (pfxH ++ "-tls-key-path"))])
    ∧ (((cmd.stringFlags (pfxH ++ "-tls-cert-path") = ""
          ∧ cmd.stringFlags (pfxH ++ "-tls-key-path") ≠ "")
        ∨ (cmd.stringFlags (pfxH ++ "-tls-cert-path") ≠ ""
          ∧ cmd.stringFlags (pfxH ++ "-tls-key-path") = "")) →
      HttpListenFromFlags net cmd pfxH srv
        = ([], some (.msg ("failed to start http server: must provide both --"
            ++ pfxH ++ "-tls-cert-path and --" ++ pfxH ++ "-tls-key-path")))) := by
  refine ⟨?_, ?_, ?_, ?_, ?_, ?_, ?_⟩
  · rintro ⟨h1, h2⟩
    simp [GrpcServerFromFlags, MustGetStringExpanded, MustGetDuration, h1, h2]
  · rintro ⟨h1, h2, h3⟩
    simp [GrpcServerFromFlags, MustGetStringExpanded, MustGetDuration,
      loadServerTLS, h1, h2, h3]
  · rintro ⟨h1, h2, h3⟩
    simp [GrpcServerFromFlags, MustGetStringExpanded, MustGetDuration,
      loadServerTLS, h1, h2, h3]
  · rintro (⟨h1, h2⟩ | ⟨h1, h2⟩)
    · simp [GrpcServerFromFlags, MustGetStringExpanded, MustGetDuration, h1, h2]
    · simp [GrpcServerFromFlags, MustGetStringExpanded, MustGetDuration, h1, h2]
  · rintro ⟨h1, h2⟩
    simp [HttpListenFromFlags, MustGetStringExpanded, MustGetBool, hen, h1, h2]
  · rintro ⟨h1, h2⟩
    simp [HttpListenFromFlags, MustGetStringExpanded, MustGetBool, hen, h1, h2]
  · rintro (⟨h1, h2⟩ | ⟨h1, h2⟩)
    · simp [HttpListenFromFlags, MustGetStringExpanded, MustGetBool, hen, h1, h2]
    · simp [HttpListenFromFlags, MustGetStringExpanded, MustGetBool, hen, h1, h2]

/-- Command fixture: a partial TLS pair (cert set, key empty) for both the
grpc and http groups; the http server enabled. -/
def cmdTlsPartial : Command :=
  { use := "serve"
    stringFlags := fun k =>
      if k == "grpc-tls-cert-path" then "/cert.pem"
      else if k == "http-tls-cert-path" then "/cert.pem" else ""
    boolFlags := fun k => k == "http-enabled"
    durationFlags := fun _ => 30 }

/-- Filesystem fixture: no cert/key pair loads. -/
def fsNone : FileSys :=
  { tlsLoadOk := fun _ _ => false
    tlsLoadErr := fun c _ => .msg ("open " ++ c ++ ": no such file or directory") }

/-- Network fixture: every http serve call ends in the server-closed
sentinel. -/
def netHttpClosed : HttpNet :=
  { serveResult := fun _ => some errServerClosed
    serveTLSResult := fun _ _ _ => some errServerClosed }

/-- An http.Server fixture. -/
def srvHttp : HttpServer := { addr := ":8443" }

/-- Witness for C2: with only the cert path set, gRPC construction and the
enabled http listen both fail with their must-provide-both errors, the
latter before any network action. -/
theorem tls_cert_key_pairing_witness :
    GrpcServerFromFlags fsNone cmdTlsPartial ""
      = .error (.msg ("failed to start gRPC server: must provide both "
          ++ "--grpc-tls-cert-path and --grpc-tls-key-path"))
    ∧ HttpListenFromFlags netHttpClosed cmdTlsPartial "http" srvHttp
      = ([], some (.msg ("failed to start http server: must provide both "
          ++ "--http-tls-cert-path and --http-tls-key-path"))) :=
  ⟨(tls_cert_key_pairing fsNone cmdTlsPartial "" "http" netHttpClosed srvHttp
      rfl).2.2.2.1 (.inr ⟨by decide, rfl⟩),
   (tls_cert_key_pairing fsNone cmdTlsPartial "" "http" netHttpClosed srvHttp
      rfl).2.2.2.2.2.2 (.inr ⟨by decide, rfl⟩)⟩

/-- gRPC network fixture: binding succeeds, Serve ends by Stop/GracefulStop
(nil). -/
def netGrpcClean : GrpcNet := { listenErr := fun _ => none, serveErr := none }

/-- gRPC network fixture: binding succeeds, Serve fails. -/
def netGrpcBoom : GrpcNet :=
  { listenErr := fun _ => none, serveErr := some (.msg "boom") }

/-- A grpc.Server fixture (plaintext, 30s keepalive). -/
def srvGrpc : GrpcServer := { maxConnAge := 30, creds := none }

/-- Command fixture: both servers enabled, every path flag empty. -/
def cmdEnabledPlain : Command :=
  { use := "serve"
    stringFlags := fun _ => ""
    boolFlags := fun _ => true
    durationFlags := fun _ => 30 }

/-- C8: when the enabled flag is false, both listen functions return
success immediately with an empty network-event trace — the network is
never touched — regardless of every other flag value, including an invalid
partial TLS pair. -/
theorem listen_disabled_no_network (netG : GrpcNet) (netH : HttpNet)
    (cmd : Command) (pfx pfxH : String) (srvG : GrpcServer)
    (srvH : HttpServer) :
    (cmd.boolFlags (defaultEmpty pfx "grpc" ++ "-enabled") = false →
      GrpcListenFromFlags netG cmd pfx srvG = ([], none))
    ∧ (cmd.boolFlags (pfxH ++ "-enabled") = false →
      HttpListenFromFlags netH cmd pfxH srvH = ([], none)) := by
  constructor
  · intro h
    simp [GrpcListenFromFlags, MustGetBool, h]
  · intro h
    simp [HttpListenFromFlags, MustGetBool, h]

/-- Command fixture: everything disabled while carrying an invalid partial
TLS pair in both flag groups. -/
def cmdDisabledPartial : Command :=
  { use := "serve"
    stringFlags := fun k =>
      if k == "grpc-tls-cert-path" || k == "http-tls-cert-path"
      then "/cert.pem" else ""
    boolFlags := fun _ => false
    durationFlags := fun _ => 30 }

/-- Witness for C8: with enabled false and a partial TLS pair present, both
listen functions succeed with no network event. -/
theorem listen_disabled_no_network_witness :
    GrpcListenFromFlags netGrpcClean cmdDisabledPartial "" srvGrpc = ([], none)
    ∧ HttpListenFromFlags netHttpClosed cmdDisabledPartial "http" srvHttp
        = ([], none) :=
  ⟨(listen_disabled_no_network netGrpcClean netHttpClosed cmdDisabledPartial
      "" "http" srvGrpc srvHttp).1 rfl,
   (listen_disabled_no_network netGrpcClean netHttpClosed cmdDisabledPartial
      "" "http" srvGrpc srvHttp).2 rfl⟩

/-- C9: serve-result handling when actually serving. For gRPC (enabled,
bind succeeded): Serve returning nil — which is what the server's own
Stop/GracefulStop produces — yields success, and any non-nil Serve error is
returned wrapped as failed-to-serve. For HTTP (enabled): a serve call
ending in the server-closed sentinel (the clean-shutdown signal of
Shutdown/Close) yields success, and any other error is returned wrapped,
on both the plaintext and the TLS paths. -/
theorem serve_clean_shutdown_and_errors (netG : GrpcNet) (netH : HttpNet)
    (cmd : Command) (pfx pfxH : String) (srvG : GrpcServer) (srvH : HttpServer)
    (henG : cmd.boolFlags (defaultEmpty pfx "grpc" ++ "-enabled") = true)
    (henH : cmd.boolFlags (pfxH ++ "-enabled") = true)
    (hbind : netG.listenErr
        (cmd.stringFlags (defaultEmpty pfx "grpc" ++ "-addr")) = none) :
    (netG.serveErr = none →
      (GrpcListenFromFlags netG cmd pfx srvG).2 = none)
    ∧ (∀ e, netG.serveErr = some e →
      (GrpcListenFromFlags netG cmd pfx srvG).2
        = some (.wrap "failed to serve gRPC" e))
    ∧ ((cmd.stringFlags (pfxH ++ "-tls-cert-path") = ""
        ∧ cmd.stringFlags (pfxH ++ "-tls-key-path") = "") →
      (netH.serveResult srvH.addr = some errServerClosed →
        (HttpListenFromFlags netH cmd pfxH srvH).2 = none)
      ∧ (∀ e, netH.serveResult srvH.addr = some e → e ≠ errServerClosed →
        (HttpListenFromFlags netH cmd pfxH srvH).2
          = some (.wrap "failed while serving http" e)))
    ∧ ((cmd.stringFlags (pfxH ++ "-tls-cert-path") ≠ ""
        ∧ cmd.stringFlags (pfxH ++ "-tls-key-path") ≠ "") →
      (netH.serveTLSResult srvH.addr
          (cmd.stringFlags (pfxH ++ "-tls-cert-path"))
          (cmd.stringFlags (pfxH ++ "-tls-key-path")) = some errServerClosed →
        (HttpListenFromFlags netH cmd pfxH srvH).2 = none)
      ∧ (∀ e, netH.serveTLSResult srvH.addr
          (cmd.stringFlags (pfxH ++ "-tls-cert-path"))
          (cmd.stringFlags (pfxH ++ "-tls-key-path")) = some e →
          e ≠ errServerClosed →
        (HttpListenFromFlags netH cmd pfxH srvH).2
          = some (.wrap "failed while serving https" e))) := by
  refine ⟨?_, ?_, ?_, ?_⟩
  · intro hs
    simp [GrpcListenFromFlags, MustGetBool, MustGetStringExpanded, henG,
      hbind, hs]
  · intro e hs
    simp [GrpcListenFromFlags, MustGetBool, MustGetStringExpanded, henG,
      hbind, hs]
  · rintro ⟨h1, h2⟩
    constructor
    · intro hs
      simp [HttpListenFromFlags, MustGetBool, MustGetStringExpanded, henH,
        h1, h2, hs]
    · intro e hs hne
      simp [HttpListenFromFlags, MustGetBool, MustGetStringExpanded, henH,
        h1, h2, hs, hne]
  · rintro ⟨h1, h2⟩
    constructor
    · intro hs
      simp [HttpListenFromFlags, MustGetBool, MustGetStringExpanded, henH,
        h1, h2, hs]
    · intro e hs hne
      simp [HttpListenFromFlags, MustGetBool, MustGetStringExpanded, henH,
        h1, h2, hs, hne]

/-- Witness for C9: with clean shutdowns the gRPC and plaintext http listen
calls succeed, and a failing gRPC Serve surfaces as the wrapped error. -/
theorem serve_clean_shutdown_and_errors_witness :
    (GrpcListenFromFlags netGrpcClean cmdEnabledPlain "" srvGrpc).2 = none
    ∧ (GrpcListenFromFlags netGrpcBoom cmdEnabledPlain "" srvGrpc).2
        = some (.wrap "failed to serve gRPC" (.msg "boom"))
    ∧ (HttpListenFromFlags netHttpClosed cmdEnabledPlain "http" srvHttp).2
        = none :=
  ⟨(serve_clean_shutdown_and_errors netGrpcClean netHttpClosed cmdEnabledPlain
      "" "http" srvGrpc srvHttp rfl rfl rfl).1 rfl,
   (serve_clean_shutdown_and_errors netGrpcBoom netHttpClosed cmdEnabledPlain
      "" "http" srvGrpc srvHttp rfl rfl rfl).2.1 (.msg "boom") rfl,
   ((serve_clean_shutdown_and_errors netGrpcClean netHttpClosed cmdEnabledPlain
      "" "http" srvGrpc srvHttp rfl rfl rfl).2.2.1 ⟨rfl, rfl⟩).1 rfl⟩

end Cobrautil
